import Mathlib

/-!
Shallow embedding of the push-notification subsystem of the
ProgressiveWebPwa repository: the client subscription manager
(`client/src/lib/notifications.ts`), the server fan-out sender and the
notification CRUD routes (`server/routes.ts`), and the in-memory
subscription store (`server/storage.ts`).  Asynchronous platform calls
(the permission prompt, the platform badge API, the push service) are
embedded as explicit oracle parameters; an operation that can hang
forever returns `Option` with `none` for divergence.
-/

namespace PWA

/-- Decidable equality for `Except`, used to evaluate the embedded
fallible operations at concrete inputs. -/
instance exceptDecidableEq {ε α : Type} [DecidableEq ε] [DecidableEq α] :
    DecidableEq (Except ε α)
  | .ok a, .ok b =>
    if h : a = b then .isTrue (by rw [h])
    else .isFalse (by intro hc; cases hc; exact h rfl)
  | .ok _, .error _ => .isFalse (by intro hc; cases hc)
  | .error _, .ok _ => .isFalse (by intro hc; cases hc)
  | .error e, .error f =>
    if h : e = f then .isTrue (by rw [h])
    else .isFalse (by intro hc; cases hc; exact h rfl)

/-! ## Platform model (client/src/lib/notifications.ts) -/

/-- The three values of the Web Notification permission state. -/
inductive NotifPermission where
  | granted
  | denied
  | default
deriving Repr, DecidableEq

/-- The device/browser facts `notifications.ts` branches on:
`isIOS()`, standalone display mode, the iOS major version parsed from the
user agent, and the basic API support conjunction
(`serviceWorker`, `Notification`, `PushManager`). -/
structure Platform where
  ios : Bool
  standalone : Bool
  iosMajor : Nat
  basicSupport : Bool
deriving Repr, DecidableEq

/-- `isPushNotificationSupported()`: basic API support, plus standalone
display mode when on iOS. -/
def isPushNotificationSupported (p : Platform) : Bool :=
  if p.ios then p.basicSupport && p.standalone else p.basicSupport

/-- The timeout (milliseconds) that `requestNotificationPermission` wraps
around the iOS permission prompt (`setTimeout(..., 5000)`). -/
def PERMISSION_TIMEOUT_MS : Nat := 5000

/-- The distinct error exits of `requestNotificationPermission`.  The
errors thrown inside the function's `try` block (permission already
denied, prompt denied or timed out) are all re-thrown by its `catch` as
the one generic message "Det gick inte att begära behörighet för
notiser", embedded as `permissionRequestFailed`. -/
inductive NotifError where
  | installRequired
  | iosVersionTooOld
  | unsupportedDevice
  | permissionRequestFailed
deriving Repr, DecidableEq

/-- The `try` block of `requestNotificationPermission`.  `promptResult`
is the behaviour of `Notification.requestPermission()`: `some r` means the
prompt settles with `r`, `none` means it never resolves.  On iOS the
prompt is raced against a `PERMISSION_TIMEOUT_MS` timer that resolves
`"default"`, so an unresolved prompt still terminates; outside iOS the
code awaits the prompt with no timeout, so an unresolved prompt hangs
(the result is `none`). -/
def requestPermissionBody (p : Platform) (current : NotifPermission)
    (promptResult : Option NotifPermission) : Option (Except NotifError Unit) :=
  match current with
  | .granted => some (.ok ())
  | .denied => some (.error .permissionRequestFailed)
  | .default =>
    if p.ios then
      let permission := promptResult.getD .default
      if permission = .granted then some (.ok ())
      else some (.error .permissionRequestFailed)
    else
      match promptResult with
      | none => none
      | some permission =>
        if permission = .granted then some (.ok ())
        else some (.error .permissionRequestFailed)

/-- `requestNotificationPermission()` from `client/src/lib/notifications.ts`.
The support gate mirrors the source: on an unsupported non-iOS platform it
throws; on unsupported iOS it throws "install to home screen" when not
standalone and "requires iOS 16.4" when the major version is below 16,
and otherwise falls through to the permission flow. -/
def requestNotificationPermission (p : Platform) (current : NotifPermission)
    (promptResult : Option NotifPermission) : Option (Except NotifError Unit) :=
  if isPushNotificationSupported p then
    requestPermissionBody p current promptResult
  else if p.ios then
    if !p.standalone then some (.error .installRequired)
    else if p.iosMajor < 16 then some (.error .iosVersionTooOld)
    else requestPermissionBody p current promptResult
  else some (.error .unsupportedDevice)

/-! ## Client subscribe flow (client/src/lib/notifications.ts,
`subscribeToNotifications`) -/

/-- Client-visible state touched by `subscribeToNotifications`:
the platform push registration (`registration.pushManager`), and the
subscription endpoints the client has reported to the server through
`POST /api/notifications/subscribe`. -/
structure ClientState where
  platformRegistration : Option String
  reportedSubs : List String
deriving Repr, DecidableEq

/-- The distinct error exits of `subscribeToNotifications`. -/
inductive SubscribeError where
  | notConfigured
  | installRequired
  | iosVersionTooOld
  | unsupportedDevice
  | permissionFailed
  | serverSubscribeFailed
deriving Repr, DecidableEq

/-- The body of `subscribeToNotifications` after the VAPID-key and
support gates: request permission, then reuse the existing push
registration if there is one (returning it without touching the platform
or the server), otherwise create a registration with `fresh` and report
it to the server (`serverOk` is whether the `fetch` responds ok).  Note
that on a server failure the platform registration has already been
created before the error is thrown. -/
def subscribeAfterChecks (p : Platform) (current : NotifPermission)
    (promptResult : Option NotifPermission) (st : ClientState)
    (fresh : String) (serverOk : Bool) :
    Option (Except SubscribeError String × ClientState) :=
  match requestNotificationPermission p current promptResult with
  | none => none
  | some (.error _) => some (.error .permissionFailed, st)
  | some (.ok _) =>
    match st.platformRegistration with
    | some existing => some (.ok existing, st)
    | none =>
      let st1 := { st with platformRegistration := some fresh }
      if serverOk then
        some (.ok fresh, { st1 with reportedSubs := st1.reportedSubs ++ [fresh] })
      else some (.error .serverSubscribeFailed, st1)

/-- `subscribeToNotifications()` from `client/src/lib/notifications.ts`:
VAPID-key gate, support gate (with the same iOS fall-through as the
permission function: unsupported iOS that is standalone with major
version at least 16 proceeds), then the subscribe body. -/
def subscribeToNotifications (vapidConfigured : Bool) (p : Platform)
    (current : NotifPermission) (promptResult : Option NotifPermission)
    (st : ClientState) (fresh : String) (serverOk : Bool) :
    Option (Except SubscribeError String × ClientState) :=
  if !vapidConfigured then some (.error .notConfigured, st)
  else if isPushNotificationSupported p then
    subscribeAfterChecks p current promptResult st fresh serverOk
  else if p.ios then
    if !p.standalone then some (.error .installRequired, st)
    else if p.iosMajor < 16 then some (.error .iosVersionTooOld, st)
    else subscribeAfterChecks p current promptResult st fresh serverOk
  else some (.error .unsupportedDevice, st)

/-! ## Badge API wrapper (client/src/lib/notifications.ts,
`setAppBadge` / `clearAppBadge`) -/

/-- The platform badge error that the final failed attempt re-throws. -/
inductive BadgeError where
  | setFailed
  | clearFailed
deriving Repr, DecidableEq

/-- `const maxAttempts = isIOS() ? 3 : 1`. -/
def badgeMaxAttempts (ios : Bool) : Nat := if ios then 3 else 1

/-- The retry loop shared by `setAppBadge` and `clearAppBadge`:
attempts are numbered from `attempt`; `attemptOk n` is whether the n-th
platform badge call succeeds.  Returns whether a call succeeded together
with the number of platform calls made. -/
def badgeAttemptLoop (attemptOk : Nat → Bool) (attempt : Nat) :
    Nat → Bool × Nat
  | 0 => (false, 0)
  | remaining + 1 =>
    if attemptOk attempt then (true, 1)
    else
      let r := badgeAttemptLoop attemptOk (attempt + 1) remaining
      (r.1, r.2 + 1)

/-- `clearAppBadge()`: no-op when the Badging API is unsupported;
otherwise up to `badgeMaxAttempts` calls to `navigator.clearAppBadge()`,
re-throwing the error of the final attempt when all fail. -/
def clearAppBadge (supported ios : Bool) (clearOk : Nat → Bool) :
    Except BadgeError Unit × Nat :=
  if !supported then (.ok (), 0)
  else
    let r := badgeAttemptLoop clearOk 1 (badgeMaxAttempts ios)
    if r.1 then (.ok (), r.2) else (.error .clearFailed, r.2)

/-- `setAppBadge(count)`: no-op when the Badging API is unsupported;
`count = 0` delegates to `clearAppBadge`; otherwise up to
`badgeMaxAttempts` calls to `navigator.setAppBadge(count)`.  When every
attempt fails the last error is re-thrown (`throw error` on the final
attempt, and the outer `catch` re-throws it to the caller).  The result
also carries the number of platform badge calls made. -/
def setAppBadge (supported ios : Bool) (count : Nat)
    (setOk clearOk : Nat → Bool) : Except BadgeError Unit × Nat :=
  if !supported then (.ok (), 0)
  else if count = 0 then clearAppBadge supported ios clearOk
  else
    let r := badgeAttemptLoop setOk 1 (badgeMaxAttempts ios)
    if r.1 then (.ok (), r.2) else (.error .setFailed, r.2)

/-! ## Server data model (shared/schema.ts, server/storage.ts) -/

/-- The behavioural classes of a stored `subscription` value as the send
route sees it: a string that `JSON.parse` rejects, a parsed object with
no `endpoint` field, or a valid subscription with an endpoint. -/
inductive SubPayload where
  | unparsableString
  | missingEndpoint
  | valid (endpoint : String)
deriving Repr, DecidableEq

/-- A row of the `push_subscriptions` table / `MemStorage.subscriptions`. -/
structure PushSubscription where
  id : Nat
  userId : Nat
  subscription : SubPayload
  active : Bool
deriving Repr, DecidableEq

/-- A row of the `notifications` table. -/
structure Notification where
  id : Nat
  title : String
  body : Option String
  link : Option String
  createdAt : Nat
deriving Repr, DecidableEq

/-- `MemStorage` from `server/storage.ts`: the subscription map (modelled
as the list of its values in insertion order) and `currentSubscriptionId`. -/
structure MemStorage where
  subs : List PushSubscription
  currentSubscriptionId : Nat
deriving Repr, DecidableEq

/-- `MemStorage.createPushSubscription`: allocates
`currentSubscriptionId++` as the id and stores the row with
`active: true`; no per-endpoint uniqueness check of any kind. -/
def createPushSubscription (st : MemStorage) (userId : Nat)
    (payload : SubPayload) : PushSubscription × MemStorage :=
  let sub : PushSubscription :=
    { id := st.currentSubscriptionId, userId := userId,
      subscription := payload, active := true }
  (sub, { subs := st.subs ++ [sub],
          currentSubscriptionId := st.currentSubscriptionId + 1 })

/-- `MemStorage.getActivePushSubscriptions`. -/
def getActivePushSubscriptions (st : MemStorage) : List PushSubscription :=
  st.subs.filter (fun s => s.active)

/-- A JSON HTTP response of the notification routes, reduced to the
fields the spec talks about. -/
structure HttpResp where
  status : Nat
  success : Bool
  sent : Nat
  err : Option String
deriving Repr, DecidableEq

/-- `POST /api/notifications/subscribe`: verify the user exists
(`storage.getUser`), validate the body against
`insertPushSubscriptionSchema` (`parsedOk`), then
`storage.createPushSubscription`; both failures answer 400 and leave the
store unchanged. -/
def subscribeRoute (userExists : Nat → Bool) (parsedOk : Bool)
    (st : MemStorage) (userId : Nat) (payload : SubPayload) :
    HttpResp × MemStorage :=
  if !userExists userId then
    (⟨400, false, 0, some "Invalid user ID"⟩, st)
  else if !parsedOk then
    (⟨400, false, 0, some "Invalid subscription data"⟩, st)
  else
    let r := createPushSubscription st userId payload
    (⟨200, true, 0, none⟩, r.2)

/-! ## Fan-out send (server/routes.ts, `POST /api/notifications/send`) -/

/-- The outcome the push service reports for one
`webpush.sendNotification` call: a resolved `SendResult` (always truthy),
or a rejection carrying an HTTP status code (410 gone, 404, 400, 401,
429, 5xx, ...). -/
inductive PushOutcome where
  | success
  | failure (statusCode : Nat)
deriving Repr, DecidableEq

/-- One per-subscription dispatch from the `subscriptions.map` body of the
send route.  An unparsable subscription string and a missing endpoint
resolve `null` before any push call; a push rejection is caught, branched
on purely for logging (the 410 branch only logs a TODO) and resolved
`null`.  `some ()` stands for the truthy `SendResult`; `none` for `null`. -/
def dispatchSub (push : Nat → PushOutcome) (sub : PushSubscription) :
    Option Unit :=
  match sub.subscription with
  | .unparsableString => none
  | .missingEndpoint => none
  | .valid _ =>
    match push sub.id with
    | .success => some ()
    | .failure _ => none

/-- `POST /api/notifications/send` from `server/routes.ts`: load the
active subscriptions; with zero of them answer 400 "No active
subscriptions found" before anything is written; otherwise insert the one
notification record (serial id `nextId`, `createdAt` = `now`), dispatch
to every active subscription with each rejection contained by its own
`catch`, and answer `{success: true, sent}` where `sent` counts the
truthy results.  No branch of the dispatch error handler writes to the
subscription store, so the store is returned unchanged. -/
def sendRoute (st : MemStorage) (store : List Notification)
    (title : String) (body : Option String) (link : Option String)
    (now nextId : Nat) (push : Nat → PushOutcome) :
    HttpResp × List Notification × MemStorage :=
  let subscriptions := getActivePushSubscriptions st
  if subscriptions.length = 0 then
    (⟨400, false, 0, some "No active subscriptions found"⟩, store, st)
  else
    let record : Notification :=
      { id := nextId, title := title, body := body, link := link,
        createdAt := now }
    let results := subscriptions.map (fun sub => dispatchSub push sub)
    let successCount := (results.filter (fun r => r.isSome)).length
    (⟨200, true, successCount, none⟩, store ++ [record], st)

/-! ## Notification list and delete routes (server/routes.ts,
src/unnamed/part_016 `DatabaseStorage.getNotifications`) -/

/-- One step of the descending-by-`createdAt` ordering that
`DatabaseStorage.getNotifications` requests with
`orderBy(desc(notifications.createdAt))`. -/
def insertByCreatedAtDesc (n : Notification) :
    List Notification → List Notification
  | [] => [n]
  | m :: rest =>
    if n.createdAt ≤ m.createdAt then m :: insertByCreatedAtDesc n rest
    else n :: m :: rest

/-- `DatabaseStorage.getNotifications` (served by
`GET /api/notifications`): the stored rows ordered by `createdAt`
descending. -/
def getNotifications (store : List Notification) : List Notification :=
  store.foldr insertByCreatedAtDesc []

/-- The value of one character as a digit in `base`, as JavaScript
`parseInt` reads it (case-insensitive letters for bases above 10). -/
def digitVal (base : Nat) (c : Char) : Option Nat :=
  let v : Option Nat :=
    if '0' ≤ c ∧ c ≤ '9' then some (c.toNat - '0'.toNat)
    else if 'a' ≤ c ∧ c ≤ 'z' then some (c.toNat - 'a'.toNat + 10)
    else if 'A' ≤ c ∧ c ≤ 'Z' then some (c.toNat - 'A'.toNat + 10)
    else none
  match v with
  | some d => if d < base then some d else none
  | none => none

/-- Longest leading run of `base` digits, accumulating their value;
`seen` records whether at least one digit was read (otherwise the result
is NaN, i.e. `none`). -/
def parseDigits (base : Nat) : List Char → Nat → Bool → Option Nat
  | [], acc, seen => if seen then some acc else none
  | c :: rest, acc, seen =>
    match digitVal base c with
    | some d => parseDigits base rest (acc * base + d) true
    | none => if seen then some acc else none

/-- The leading whitespace JavaScript `parseInt` strips: ECMAScript
`StrWhiteSpaceChar`, i.e. WhiteSpace (TAB, VT U+000B, FF U+000C, SP,
NBSP U+00A0, ZWNBSP U+FEFF, and the Unicode Zs space separators
U+1680, U+2000..U+200A, U+202F, U+205F, U+3000) together with the
LineTerminators (LF, CR, LS U+2028, PS U+2029). -/
def jsWhitespace (c : Char) : Bool :=
  c = '\t' || c = '\n' || c.toNat = 0x0B || c.toNat = 0x0C || c = '\r' ||
  c = ' ' || c.toNat = 0xA0 || c.toNat = 0xFEFF ||
  c.toNat = 0x1680 || (0x2000 ≤ c.toNat && c.toNat ≤ 0x200A) ||
  c.toNat = 0x2028 || c.toNat = 0x2029 ||
  c.toNat = 0x202F || c.toNat = 0x205F || c.toNat = 0x3000

/-- JavaScript `parseInt(string)` with no radix argument, as the delete
route calls it on `req.params.id`: strip leading whitespace, read an
optional sign, auto-detect a `0x`/`0X` hexadecimal prefix (decimal
otherwise), then take the longest leading digit run; NaN (`none`) only
when that run is empty. -/
def jsParseInt (s : String) : Option Int :=
  let cs := s.data.dropWhile jsWhitespace
  match cs with
  | [] => none
  | c :: rest =>
    let signAndDigits : Int × List Char :=
      if c = '-' then (-1, rest)
      else if c = '+' then (1, rest)
      else (1, cs)
    let baseAndDigits : Nat × List Char :=
      match signAndDigits.2 with
      | c0 :: c1 :: rest2 =>
        if c0 = '0' ∧ (c1 = 'x' ∨ c1 = 'X') then (16, rest2)
        else (10, signAndDigits.2)
      | _ => (10, signAndDigits.2)
    (parseDigits baseAndDigits.1 baseAndDigits.2 0 false).map
      (fun n => signAndDigits.1 * (n : Int))

/-- The canonical decimal numeral of a natural number. -/
def decimalString (k : Nat) : String :=
  if k = 0 then "0"
  else String.mk ((Nat.digits 10 k).reverse.map Nat.digitChar)

/-- `DELETE /api/notifications/:id` from `server/routes.ts`:
`parseInt(req.params.id)`; on NaN answer 400 and touch nothing, otherwise
delete every row whose id equals the parsed value and answer 200. -/
def deleteNotificationRoute (store : List Notification) (idParam : String) :
    Nat × List Notification :=
  match jsParseInt idParam with
  | none => (400, store)
  | some i => (200, store.filter (fun n => !((n.id : Int) == i)))

/-! ## Iterated sends (for the round-trip property) -/

/-- The inputs of one `POST /api/notifications/send` call: the message
fields, the wall-clock instant `new Date()` (`now`), and the serial id
the insert allocates (`nextId`). -/
structure SendReq where
  title : String
  body : Option String
  link : Option String
  now : Nat
  nextId : Nat
deriving Repr, DecidableEq

/-- The notification record a successful send inserts for a request. -/
def mkNotificationRecord (r : SendReq) : Notification :=
  { id := r.nextId, title := r.title, body := r.body, link := r.link,
    createdAt := r.now }

/-- A sequence of send calls threaded through the notification store. -/
def runSends (st : MemStorage) (push : Nat → PushOutcome) :
    List SendReq → List Notification → List Notification
  | [], store => store
  | r :: rs, store =>
    runSends st push rs
      (sendRoute st store r.title r.body r.link r.now r.nextId push).2.1

/-! ## Route mounting (server/routes.ts `registerRoutes`, and the
src/unnamed/part_018 variant) -/

/-- The environment-supplied VAPID key pair. -/
structure ServerConfig where
  vapidPublicKey : Option String
  vapidPrivateKey : Option String
deriving Repr, DecidableEq

/-- The always-mounted (auth and profile) routes of
`registerRoutes` in `server/routes.ts`, in registration order. -/
def authRoutes : List String :=
  ["POST /api/register", "POST /api/verify", "POST /api/resend-verification",
   "POST /api/login", "POST /api/logout", "GET /api/profile",
   "PATCH /api/profile", "DELETE /api/account"]

/-- The notification routes that `registerRoutes` registers only after
the VAPID guard. -/
def notificationRoutes : List String :=
  ["GET /api/notifications", "DELETE /api/notifications/:id",
   "POST /api/notifications/subscribe", "POST /api/notifications/send"]

/-- The routes `registerRoutes` in `server/routes.ts` mounts: when either
VAPID key is absent it logs a warning and returns the bare HTTP server
early, so none of the notification routes is registered. -/
def registerRoutesMounted (cfg : ServerConfig) : List String :=
  if cfg.vapidPublicKey.isNone || cfg.vapidPrivateKey.isNone then authRoutes
  else authRoutes ++ notificationRoutes

/-- The `registerRoutes` variant in `src/unnamed/part_018`: with either
VAPID key absent it throws `"VAPID keys not configured"` instead of
mounting anything. -/
def registerRoutesVariantMounted (cfg : ServerConfig) :
    Except String (List String) :=
  if cfg.vapidPublicKey.isNone || cfg.vapidPrivateKey.isNone then
    .error "VAPID keys not configured"
  else
    .ok ["POST /api/notifications/subscribe", "POST /api/notifications/send"]

/-- The claim C9 reads "the decimal representation of an integer"; this
follows the spec's words for comparison with what the route accepts: an
optional minus sign followed by a nonempty run of decimal digits and
nothing else. -/
def isDecimalIntString (s : String) : Bool :=
  match s.data with
  | [] => false
  | '-' :: rest => !rest.isEmpty && rest.all (fun c => '0' ≤ c && c ≤ '9')
  | l => l.all (fun c => '0' ≤ c && c ≤ '9')

/-! ## Helper lemmas -/

/-- Successes and failures of a fan-out partition the dispatched list. -/
lemma dispatch_count_add (push : Nat → PushOutcome) (l : List PushSubscription) :
    ((l.map (fun sub => dispatchSub push sub)).filter (fun r => r.isSome)).length
      + (l.filter (fun s => (dispatchSub push s).isNone)).length = l.length := by
  induction l with
  | nil => rfl
  | cons a l ih =>
    cases hd : dispatchSub push a <;>
      simp [List.filter_cons, hd] <;> omega

/-! ## Claim theorems -/

/-- Claim C1: a send with zero active subscriptions answers the 400
"no subscribers" error, and neither the notification store nor the
subscription store changes — in particular no Notification Record is
inserted for the rejected send. -/
theorem sendRoute_zero_subscribers_rejected
    (st : MemStorage) (store : List Notification)
    (title : String) (body link : Option String) (now nextId : Nat)
    (push : Nat → PushOutcome)
    (h : getActivePushSubscriptions st = []) :
    sendRoute st store title body link now nextId push =
      (⟨400, false, 0, some "No active subscriptions found"⟩, store, st) := by
  simp [sendRoute, h]

/-- Witness for C1: a store whose only subscription is inactive. -/
theorem sendRoute_zero_subscribers_rejected_witness :
    getActivePushSubscriptions ⟨[⟨1, 7, .valid "e", false⟩], 2⟩ = [] ∧
    sendRoute ⟨[⟨1, 7, .valid "e", false⟩], 2⟩ [] "t" none none 10 1
        (fun _ => .success) =
      (⟨400, false, 0, some "No active subscriptions found"⟩, [],
        ⟨[⟨1, 7, .valid "e", false⟩], 2⟩) :=
  ⟨by decide,
   sendRoute_zero_subscribers_rejected ⟨[⟨1, 7, .valid "e", false⟩], 2⟩ []
     "t" none none 10 1 (fun _ => .success) (by decide)⟩

/-- Claim C2: with at least one active endpoint, every per-endpoint
failure is contained by its own catch (the batch is never aborted and the
route still answers 200), and the response is `{success: true, sent: N - M}`
where N is the number of active endpoints and M the number of failed
dispatches, whatever mix of failure kinds they are. -/
theorem sendRoute_fanout_failure_isolation
    (st : MemStorage) (store : List Notification)
    (title : String) (body link : Option String) (now nextId : Nat)
    (push : Nat → PushOutcome)
    (h : getActivePushSubscriptions st ≠ []) :
    (sendRoute st store title body link now nextId push).1 =
      ⟨200, true,
        (getActivePushSubscriptions st).length -
          ((getActivePushSubscriptions st).filter
            (fun s => (dispatchSub push s).isNone)).length,
        none⟩ := by
  have hlen : (getActivePushSubscriptions st).length ≠ 0 := by
    simpa [List.length_eq_zero] using h
  have hcount := dispatch_count_add push (getActivePushSubscriptions st)
  simp only [sendRoute, if_neg hlen]
  refine congrArg (fun n => HttpResp.mk 200 true n none) ?_
  omega

/-- Witness for C2: two active endpoints, one succeeding and one
rejected with a 500, give `sent = 1`. -/
theorem sendRoute_fanout_failure_isolation_witness :
    getActivePushSubscriptions
        ⟨[⟨1, 7, .valid "e1", true⟩, ⟨2, 7, .valid "e2", true⟩], 3⟩ ≠ [] ∧
    (sendRoute ⟨[⟨1, 7, .valid "e1", true⟩, ⟨2, 7, .valid "e2", true⟩], 3⟩
        [] "t" none none 10 1
        (fun i => if i = 1 then .success else .failure 500)).1 =
      ⟨200, true, 1, none⟩ :=
  ⟨by decide,
   by
    simpa using
      sendRoute_fanout_failure_isolation
        ⟨[⟨1, 7, .valid "e1", true⟩, ⟨2, 7, .valid "e2", true⟩], 3⟩
        [] "t" none none 10 1
        (fun i => if i = 1 then .success else .failure 500) (by decide)⟩

/-- Claim C3 (code bug): a dispatch rejected with statusCode 410 is only
logged (`TODO: Add code to remove invalid subscriptions`); at the
concrete failing input — one active subscription whose push service
answers 410 — the subscription store is returned unchanged, the endpoint
is still active and still part of the next fan-out's active-subscription
query, and the route answers `{success: true, sent: 0}`. -/
theorem sendRoute_410_leaves_endpoint_active :
    (sendRoute ⟨[⟨1, 7, .valid "https://gone.example", true⟩], 2⟩ []
        "t" (some "b") none 10 1 (fun _ => .failure 410)).2.2 =
      ⟨[⟨1, 7, .valid "https://gone.example", true⟩], 2⟩ ∧
    getActivePushSubscriptions
        (sendRoute ⟨[⟨1, 7, .valid "https://gone.example", true⟩], 2⟩ []
          "t" (some "b") none 10 1 (fun _ => .failure 410)).2.2 =
      [⟨1, 7, .valid "https://gone.example", true⟩] ∧
    (sendRoute ⟨[⟨1, 7, .valid "https://gone.example", true⟩], 2⟩ []
        "t" (some "b") none 10 1 (fun _ => .failure 410)).1 =
      ⟨200, true, 0, none⟩ := by
  decide

/-- Claim C4: on a supported platform with permission granted, a device
that already holds a live push registration gets that registration back
from subscribe, with no new platform registration and nothing reported to
the server; and starting from no registration, two consecutive subscribe
calls leave exactly one stored endpoint (the first call's), the second
call returning the existing registration unchanged. -/
theorem subscribeToNotifications_idempotent
    (p : Platform) (promptResult : Option NotifPermission)
    (hs : isPushNotificationSupported p = true)
    (st : ClientState) (e fresh : String)
    (hreg : st.platformRegistration = some e)
    (st0 : ClientState) (fresh1 fresh2 : String)
    (h0 : st0.platformRegistration = none) :
    subscribeToNotifications true p .granted promptResult st fresh true =
      some (.ok e, st) ∧
    subscribeToNotifications true p .granted promptResult st0 fresh1 true =
      some (.ok fresh1, ⟨some fresh1, st0.reportedSubs ++ [fresh1]⟩) ∧
    subscribeToNotifications true p .granted promptResult
        ⟨some fresh1, st0.reportedSubs ++ [fresh1]⟩ fresh2 true =
      some (.ok fresh1, ⟨some fresh1, st0.reportedSubs ++ [fresh1]⟩) := by
  refine ⟨?_, ?_, ?_⟩ <;>
    simp [subscribeToNotifications, subscribeAfterChecks,
      requestNotificationPermission, requestPermissionBody, hs, hreg, h0]

/-- Witness for C4 on a concrete supported platform and states. -/
theorem subscribeToNotifications_idempotent_witness :
    isPushNotificationSupported ⟨false, false, 0, true⟩ = true ∧
    ClientState.platformRegistration ⟨some "E", ["E"]⟩ = some "E" ∧
    ClientState.platformRegistration ⟨none, []⟩ = none ∧
    (subscribeToNotifications true ⟨false, false, 0, true⟩ .granted none
        ⟨some "E", ["E"]⟩ "F" true = some (.ok "E", ⟨some "E", ["E"]⟩) ∧
     subscribeToNotifications true ⟨false, false, 0, true⟩ .granted none
        ⟨none, []⟩ "F" true = some (.ok "F", ⟨some "F", [] ++ ["F"]⟩) ∧
     subscribeToNotifications true ⟨false, false, 0, true⟩ .granted none
        ⟨some "F", [] ++ ["F"]⟩ "G" true =
          some (.ok "F", ⟨some "F", [] ++ ["F"]⟩)) :=
  ⟨by decide, by decide, by decide,
   subscribeToNotifications_idempotent ⟨false, false, 0, true⟩ none (by decide)
     ⟨some "E", ["E"]⟩ "E" "F" (by decide) ⟨none, []⟩ "F" "G" (by decide)⟩

/-- Claim C5, counterexample: on iOS, the error surfaced when the
permission prompt never resolves (the 5-second timeout path) is the very
same generic `permissionRequestFailed` error surfaced when the prompt is
explicitly denied — the outer catch of `requestNotificationPermission`
rethrows one generic message for both — so the timed-out prompt does not
produce a timeout-classified (distinguishable) error. -/
theorem requestPermission_timeout_error_equals_denial_error :
    requestNotificationPermission ⟨true, true, 17, true⟩ .default none =
      some (.error .permissionRequestFailed) ∧
    requestNotificationPermission ⟨true, true, 17, true⟩ .default
        (some .denied) =
      some (.error .permissionRequestFailed) := by
  decide

/-- Claim C5 as amended: on an iOS-family platform a permission prompt
that never resolves still makes `requestNotificationPermission` terminate
— the prompt is raced against the 5000 ms (5 s) timeout and the timed-out
prompt is treated exactly like a denied one — but the surfaced error is
the same generic permission error as for an explicit denial, not a
timeout-distinguished one. -/
theorem requestPermission_ios_timeout_terminates
    (p : Platform) (current : NotifPermission) (h : p.ios = true) :
    (requestNotificationPermission p current none).isSome = true ∧
    requestNotificationPermission p current none =
      requestNotificationPermission p current (some .denied) ∧
    PERMISSION_TIMEOUT_MS = 5000 := by
  obtain ⟨ios, standalone, iosMajor, basic⟩ := p
  simp only at h
  subst h
  cases standalone <;> cases basic <;> cases current <;>
    simp [requestNotificationPermission, requestPermissionBody,
      isPushNotificationSupported, PERMISSION_TIMEOUT_MS] <;>
    split <;> simp

/-- Witness for the amended C5 on a concrete iOS platform. -/
theorem requestPermission_ios_timeout_terminates_witness :
    Platform.ios ⟨true, true, 17, true⟩ = true ∧
    ((requestNotificationPermission ⟨true, true, 17, true⟩ .default
        none).isSome = true ∧
     requestNotificationPermission ⟨true, true, 17, true⟩ .default none =
       requestNotificationPermission ⟨true, true, 17, true⟩ .default
         (some .denied) ∧
     PERMISSION_TIMEOUT_MS = 5000) :=
  ⟨by decide,
   requestPermission_ios_timeout_terminates ⟨true, true, 17, true⟩ .default
     (by decide)⟩

/-- The badge retry loop makes at most `remaining` platform calls. -/
lemma badgeAttemptLoop_le (attemptOk : Nat → Bool) (attempt remaining : Nat) :
    (badgeAttemptLoop attemptOk attempt remaining).2 ≤ remaining := by
  induction remaining generalizing attempt with
  | zero => simp [badgeAttemptLoop]
  | succ n ih =>
    simp only [badgeAttemptLoop]
    by_cases h : attemptOk attempt = true
    · simp [h]
    · simp only [h, if_false, Bool.false_eq_true, reduceIte]
      have := ih (attempt + 1)
      omega

/-- The badge retry loop reports failure exactly when every attempt in
its window fails. -/
lemma badgeAttemptLoop_false_iff (attemptOk : Nat → Bool)
    (attempt remaining : Nat) :
    (badgeAttemptLoop attemptOk attempt remaining).1 = false ↔
      ∀ k, attempt ≤ k → k < attempt + remaining → attemptOk k = false := by
  induction remaining generalizing attempt with
  | zero =>
    simp only [badgeAttemptLoop]
    exact ⟨fun _ k hk1 hk2 => absurd hk2 (by omega), fun _ => by trivial⟩
  | succ n ih =>
    simp only [badgeAttemptLoop]
    by_cases h : attemptOk attempt = true
    · simp only [h, if_true]
      constructor
      · intro hcontra
        cases hcontra
      · intro hall
        have := hall attempt (by omega) (by omega)
        rw [h] at this
        cases this
    · simp only [h, if_false, Bool.false_eq_true, reduceIte]
      rw [ih (attempt + 1)]
      constructor
      · intro hall k hk1 hk2
        by_cases hk : k = attempt
        · subst hk
          exact Bool.eq_false_iff.mpr h
        · exact hall k (by omega) (by omega)
      · intro hall k hk1 hk2
        exact hall k (by omega) (by omega)

/-- Claim C6, counterexample: with the Badging API supported on iOS and a
platform badge call that always fails, `setAppBadge 1` makes its three
bounded attempts and then raises the failure to the caller
(`throw error` on the final attempt, re-thrown by the outer catch) — the
failure is not swallowed. -/
theorem setAppBadge_rethrows_counterexample :
    setAppBadge true true 1 (fun _ => false) (fun _ => false) =
      (.error .setFailed, 3) := by
  decide

/-- Claim C6 as amended: `setAppBadge` performs a small bounded number of
platform badge calls — at most `badgeMaxAttempts` (3 on iOS, 1
otherwise) — and succeeds as soon as one attempt does; but when the
Badging API is supported and every bounded attempt fails, the failure is
re-thrown to the caller instead of being swallowed. -/
theorem setAppBadge_bounded_attempts_then_rethrow
    (supported ios : Bool) (count : Nat) (setOk clearOk : Nat → Bool)
    (hc : count ≠ 0) :
    (setAppBadge supported ios count setOk clearOk).2 ≤ badgeMaxAttempts ios ∧
    badgeMaxAttempts ios ≤ 3 ∧
    ((setAppBadge supported ios count setOk clearOk).1 = .error .setFailed ↔
      supported = true ∧
        ∀ k, 1 ≤ k → k ≤ badgeMaxAttempts ios → setOk k = false) := by
  have hmax3 : badgeMaxAttempts ios ≤ 3 := by
    cases ios <;> simp [badgeMaxAttempts]
  cases supported with
  | false =>
    refine ⟨by simp [setAppBadge], hmax3, ?_⟩
    simp [setAppBadge]
  | true =>
    have heq : setAppBadge true ios count setOk clearOk =
        (if (badgeAttemptLoop setOk 1 (badgeMaxAttempts ios)).1 then
          (.ok (), (badgeAttemptLoop setOk 1 (badgeMaxAttempts ios)).2)
         else
          (.error .setFailed,
            (badgeAttemptLoop setOk 1 (badgeMaxAttempts ios)).2)) := by
      simp [setAppBadge, hc]
    have hle := badgeAttemptLoop_le setOk 1 (badgeMaxAttempts ios)
    have hiff := badgeAttemptLoop_false_iff setOk 1 (badgeMaxAttempts ios)
    have hiff2 : (badgeAttemptLoop setOk 1 (badgeMaxAttempts ios)).1 = false ↔
        ∀ k, 1 ≤ k → k ≤ badgeMaxAttempts ios → setOk k = false := by
      rw [hiff]
      constructor
      · intro hall k hk1 hk2
        exact hall k hk1 (by omega)
      · intro hall k hk1 hk2
        exact hall k hk1 (by omega)
    rw [heq]
    cases hs : (badgeAttemptLoop setOk 1 (badgeMaxAttempts ios)).1 with
    | true =>
      refine ⟨by simpa using hle, hmax3, ?_⟩
      simp only [if_true, true_and]
      constructor
      · intro hcontra
        cases hcontra
      · intro hall
        rw [hiff2.mpr hall] at hs
        cases hs
    | false =>
      refine ⟨by simpa using hle, hmax3, ?_⟩
      simp only [if_false, Bool.false_eq_true, reduceIte, true_and]
      constructor
      · intro _
        exact hiff2.mp hs
      · intro _
        trivial

/-- Witness for the amended C6: iOS, supported, all attempts failing. -/
theorem setAppBadge_bounded_attempts_then_rethrow_witness :
    (1 : Nat) ≠ 0 ∧
    ((setAppBadge true true 1 (fun _ => false) (fun _ => false)).2 ≤
        badgeMaxAttempts true ∧
     badgeMaxAttempts true ≤ 3 ∧
     ((setAppBadge true true 1 (fun _ => false) (fun _ => false)).1 =
          .error .setFailed ↔
        true = true ∧
          ∀ k, 1 ≤ k → k ≤ badgeMaxAttempts true →
            (fun _ : Nat => false) k = false)) :=
  ⟨by decide,
   setAppBadge_bounded_attempts_then_rethrow true true 1
     (fun _ => false) (fun _ => false) (by decide)⟩

/-- Claim C7, counterexample: with the public VAPID key absent,
`registerRoutes` in `server/routes.ts` returns early, so the send and
subscribe routes are not mounted at all (no handler to answer "not
configured"), and the `src/unnamed/part_018` variant throws
"VAPID keys not configured" instead of mounting anything. -/
theorem vapid_guard_counterexample :
    "POST /api/notifications/send" ∉ registerRoutesMounted ⟨none, some "k"⟩ ∧
    "POST /api/notifications/subscribe" ∉
      registerRoutesMounted ⟨none, some "k"⟩ ∧
    registerRoutesVariantMounted ⟨none, some "k"⟩ =
      .error "VAPID keys not configured" := by
  decide

/-- Claim C7 as amended: when either VAPID key is absent, the server of
`server/routes.ts` does not crash — `registerRoutes` still mounts the
auth and profile routes and returns — but it mounts none of the
notification routes, so send and subscribe are simply unhandled rather
than answering a "not configured" error; the `src/unnamed/part_018`
variant instead throws "VAPID keys not configured". -/
theorem vapid_guard_skips_notification_routes (cfg : ServerConfig)
    (h : cfg.vapidPublicKey = none ∨ cfg.vapidPrivateKey = none) :
    registerRoutesMounted cfg = authRoutes ∧
    (∀ r ∈ notificationRoutes, r ∉ registerRoutesMounted cfg) ∧
    registerRoutesVariantMounted cfg = .error "VAPID keys not configured" := by
  have hguard : (cfg.vapidPublicKey.isNone || cfg.vapidPrivateKey.isNone) =
      true := by
    rcases h with h | h <;> simp [h]
  have hdisj : ∀ r ∈ notificationRoutes, r ∉ authRoutes := by decide
  refine ⟨?_, ?_, ?_⟩
  · simp [registerRoutesMounted, hguard]
  · intro r hr
    simp only [registerRoutesMounted, hguard, if_true]
    exact hdisj r hr
  · simp [registerRoutesVariantMounted, hguard]

/-- Witness for the amended C7 at a concrete half-configured key pair. -/
theorem vapid_guard_skips_notification_routes_witness :
    (ServerConfig.vapidPublicKey ⟨none, some "k"⟩ = none ∨
      ServerConfig.vapidPrivateKey ⟨none, some "k"⟩ = none) ∧
    (registerRoutesMounted ⟨none, some "k"⟩ = authRoutes ∧
     (∀ r ∈ notificationRoutes, r ∉ registerRoutesMounted ⟨none, some "k"⟩) ∧
     registerRoutesVariantMounted ⟨none, some "k"⟩ =
       .error "VAPID keys not configured") :=
  ⟨Or.inl rfl,
   vapid_guard_skips_notification_routes ⟨none, some "k"⟩ (Or.inl rfl)⟩

/-! ### Ordering facts about `getNotifications` -/

/-- Inserting into the descending order is a permutation with consing. -/
lemma perm_insertByCreatedAtDesc (n : Notification) (l : List Notification) :
    (insertByCreatedAtDesc n l).Perm (n :: l) := by
  induction l with
  | nil => exact List.Perm.refl _
  | cons m rest ih =>
    simp only [insertByCreatedAtDesc]
    by_cases h : n.createdAt ≤ m.createdAt
    · simp only [h, if_true]
      exact (ih.cons m).trans (List.Perm.swap n m rest)
    · simp only [h, if_false, Bool.false_eq_true, reduceIte]
      exact List.Perm.refl _

/-- `getNotifications` permutes the store. -/
lemma perm_getNotifications (l : List Notification) :
    (getNotifications l).Perm l := by
  induction l with
  | nil => exact List.Perm.refl _
  | cons m rest ih =>
    exact (perm_insertByCreatedAtDesc m (getNotifications rest)).trans
      (ih.cons m)

/-- `getNotifications` preserves the number of records. -/
lemma length_getNotifications (l : List Notification) :
    (getNotifications l).length = l.length :=
  (perm_getNotifications l).length_eq

/-- Insertion keeps the descending-by-`createdAt` pairwise order. -/
lemma pairwise_insertByCreatedAtDesc (n : Notification)
    (l : List Notification)
    (h : l.Pairwise (fun a b => b.createdAt ≤ a.createdAt)) :
    (insertByCreatedAtDesc n l).Pairwise
      (fun a b => b.createdAt ≤ a.createdAt) := by
  induction l with
  | nil => simp [insertByCreatedAtDesc]
  | cons m rest ih =>
    rcases List.pairwise_cons.mp h with ⟨hm, hrest⟩
    simp only [insertByCreatedAtDesc]
    by_cases hc : n.createdAt ≤ m.createdAt
    · simp only [hc, if_true]
      refine List.pairwise_cons.mpr ⟨?_, ih hrest⟩
      intro b hb
      have hb' : b = n ∨ b ∈ rest :=
        List.mem_cons.mp ((perm_insertByCreatedAtDesc n rest).subset hb)
      rcases hb' with rfl | hb'
      · exact hc
      · exact hm b hb'
    · simp only [hc, if_false, Bool.false_eq_true, reduceIte]
      refine List.pairwise_cons.mpr ⟨?_, h⟩
      intro b hb
      rcases List.mem_cons.mp hb with rfl | hb'
      · omega
      · exact le_trans (hm b hb') (by omega)

/-- Every `getNotifications` result is in (non-strict) newest-first
order. -/
lemma pairwise_getNotifications (l : List Notification) :
    (getNotifications l).Pairwise (fun a b => b.createdAt ≤ a.createdAt) := by
  induction l with
  | nil => simp [getNotifications]
  | cons m rest ih => exact pairwise_insertByCreatedAtDesc m _ ih

/-- Inserting an element no newer than anything in the list appends it. -/
lemma insertByCreatedAtDesc_append (n : Notification) (l : List Notification)
    (h : ∀ m ∈ l, n.createdAt ≤ m.createdAt) :
    insertByCreatedAtDesc n l = l ++ [n] := by
  induction l with
  | nil => rfl
  | cons m rest ih =>
    simp only [insertByCreatedAtDesc, h m (by simp), if_true]
    rw [ih (fun x hx => h x (by simp [hx]))]
    rfl

/-- On a store whose timestamps strictly increase (each send observed a
later `new Date()` than the previous one), `getNotifications` is exactly
the reversal of insertion order. -/
lemma getNotifications_of_strict_increasing (l : List Notification)
    (h : l.Chain' (fun a b => a.createdAt < b.createdAt)) :
    getNotifications l = l.reverse := by
  induction l with
  | nil => rfl
  | cons m rest ih =>
    have hpair :
        (m :: rest).Pairwise (fun a b => a.createdAt < b.createdAt) :=
      (@List.chain'_iff_pairwise Notification
        (fun a b => a.createdAt < b.createdAt)
        ⟨fun _ _ _ hab hbc => lt_trans hab hbc⟩ (m :: rest)).mp h
    rcases List.pairwise_cons.mp hpair with ⟨hm, hrest⟩
    have : getNotifications (m :: rest) =
        insertByCreatedAtDesc m (getNotifications rest) := rfl
    rw [this, ih (List.Chain'.tail h),
      insertByCreatedAtDesc_append m rest.reverse
        (fun x hx => le_of_lt (hm x (List.mem_reverse.mp hx)))]
    simp

/-- With at least one active subscription, a send appends exactly its one
notification record to the store. -/
lemma sendRoute_store_append (st : MemStorage) (store : List Notification)
    (title : String) (body link : Option String) (now nextId : Nat)
    (push : Nat → PushOutcome) (h : getActivePushSubscriptions st ≠ []) :
    (sendRoute st store title body link now nextId push).2.1 =
      store ++ [⟨nextId, title, body, link, now⟩] := by
  simp [sendRoute, h]

/-- A sequence of successful sends appends one record per send, in call
order. -/
lemma runSends_eq_append (st : MemStorage) (push : Nat → PushOutcome)
    (h : getActivePushSubscriptions st ≠ []) (reqs : List SendReq)
    (store : List Notification) :
    runSends st push reqs store = store ++ reqs.map mkNotificationRecord := by
  induction reqs generalizing store with
  | nil => simp [runSends]
  | cons r rs ih =>
    simp only [runSends, List.map_cons]
    rw [sendRoute_store_append st store r.title r.body r.link r.now r.nextId
      push h, ih]
    simp [mkNotificationRecord]

/-- Claim C8, counterexample: on a notification-store state holding two
records with equal `createdAt` (two sends inside the same millisecond),
the list `GET /api/notifications` returns is not in strict newest-first
order — adjacent records compare equal, so only the non-strict order
holds for every state. -/
theorem getNotifications_equal_timestamps_not_strict :
    ¬ (getNotifications
        [⟨1, "a", none, none, 5⟩, ⟨2, "b", none, none, 5⟩]).Chain'
      (fun a b => b.createdAt < a.createdAt) := by
  intro h
  rw [show getNotifications
        [⟨1, "a", none, none, 5⟩, ⟨2, "b", none, none, 5⟩] =
      [⟨2, "b", none, none, 5⟩, ⟨1, "a", none, none, 5⟩] from rfl] at h
  exact absurd (List.chain'_cons.mp h).1 (by decide)

/-- Claim C8 as amended: `GET /api/notifications` returns the stored
records in newest-first order by `createdAt` — non-strict on every store
state, and strict whenever the stored timestamps are pairwise distinct;
in particular, after a sequence of successful sends with strictly
increasing `new Date()` instants starting from an empty store, the order
is strictly newest-first and the returned count equals the number of
those sends (each successful send inserts exactly one record). -/
theorem getNotifications_round_trip
    (st : MemStorage) (push : Nat → PushOutcome) (reqs : List SendReq)
    (hactive : getActivePushSubscriptions st ≠ [])
    (hmono : reqs.Chain' (fun a b => a.now < b.now)) :
    (∀ store : List Notification,
        (getNotifications store).Chain'
          (fun a b => b.createdAt ≤ a.createdAt) ∧
        (getNotifications store).length = store.length) ∧
    (getNotifications (runSends st push reqs [])).length = reqs.length ∧
    (getNotifications (runSends st push reqs [])).Chain'
      (fun a b => b.createdAt < a.createdAt) := by
  have hrun := runSends_eq_append st push hactive reqs []
  have hmap : (reqs.map mkNotificationRecord).Chain'
      (fun a b => a.createdAt < b.createdAt) := by
    rw [List.chain'_map]
    simpa [mkNotificationRecord] using hmono
  refine ⟨?_, ?_, ?_⟩
  · intro store
    exact ⟨(pairwise_getNotifications store).chain',
      length_getNotifications store⟩
  · rw [hrun]
    simp [length_getNotifications]
  · rw [hrun]
    simp only [List.nil_append]
    rw [getNotifications_of_strict_increasing _ hmap, List.chain'_reverse]
    exact hmap

/-- Witness for the amended C8: one active endpoint and two sends at
instants 1 and 2. -/
theorem getNotifications_round_trip_witness :
    getActivePushSubscriptions ⟨[⟨1, 7, .valid "e", true⟩], 2⟩ ≠ [] ∧
    List.Chain' (fun a b : SendReq => a.now < b.now)
      [⟨"a", none, none, 1, 1⟩, ⟨"b", none, none, 2, 2⟩] ∧
    (getNotifications (runSends ⟨[⟨1, 7, .valid "e", true⟩], 2⟩
        (fun _ => .success)
        [⟨"a", none, none, 1, 1⟩, ⟨"b", none, none, 2, 2⟩] [])).length = 2 ∧
    (getNotifications (runSends ⟨[⟨1, 7, .valid "e", true⟩], 2⟩
        (fun _ => .success)
        [⟨"a", none, none, 1, 1⟩, ⟨"b", none, none, 2, 2⟩] [])).Chain'
      (fun a b => b.createdAt < a.createdAt) :=
  ⟨by decide, by simp [List.chain'_cons],
   (getNotifications_round_trip ⟨[⟨1, 7, .valid "e", true⟩], 2⟩
     (fun _ => .success) [⟨"a", none, none, 1, 1⟩, ⟨"b", none, none, 2, 2⟩]
     (by decide) (by simp [List.chain'_cons])).2.1,
   (getNotifications_round_trip ⟨[⟨1, 7, .valid "e", true⟩], 2⟩
     (fun _ => .success) [⟨"a", none, none, 1, 1⟩, ⟨"b", none, none, 2, 2⟩]
     (by decide) (by simp [List.chain'_cons])).2.2⟩

/-! ### Facts about `jsParseInt` on canonical decimal numerals -/

/-- A decimal digit character evaluates to its digit in base 10. -/
lemma digitVal_digitChar (d : Nat) (hd : d < 10) :
    digitVal 10 (Nat.digitChar d) = some d := by
  interval_cases d <;> decide

/-- A decimal digit character is not whitespace. -/
lemma jsWhitespace_digitChar (d : Nat) (hd : d < 10) :
    jsWhitespace (Nat.digitChar d) = false := by
  interval_cases d <;> decide

/-- A decimal digit character is not a sign. -/
lemma digitChar_ne_dash (d : Nat) (hd : d < 10) : Nat.digitChar d ≠ '-' := by
  interval_cases d <;> decide

/-- A decimal digit character is not a plus sign. -/
lemma digitChar_ne_plus (d : Nat) (hd : d < 10) : Nat.digitChar d ≠ '+' := by
  interval_cases d <;> decide

/-- A decimal digit character is not a hexadecimal prefix letter. -/
lemma digitChar_ne_x (d : Nat) (hd : d < 10) :
    Nat.digitChar d ≠ 'x' ∧ Nat.digitChar d ≠ 'X' := by
  interval_cases d <;> exact ⟨by decide, by decide⟩

/-- `parseDigits` consumes a digit-character list completely. -/
lemma parseDigits_digits (l : List Nat) (hl : ∀ d ∈ l, d < 10) (acc : Nat) :
    parseDigits 10 (l.map Nat.digitChar) acc true =
      some (l.foldl (fun a d => a * 10 + d) acc) := by
  induction l generalizing acc with
  | nil => rfl
  | cons d ds ih =>
    have hd : d < 10 := hl d (by simp)
    simp only [List.map_cons, parseDigits, digitVal_digitChar d hd,
      List.foldl_cons]
    exact ih (fun x hx => hl x (by simp [hx])) (acc * 10 + d)

/-- `parseDigits` starting before its first digit. -/
lemma parseDigits_first (d : Nat) (ds : List Nat) (hd : d < 10)
    (hds : ∀ x ∈ ds, x < 10) :
    parseDigits 10 ((d :: ds).map Nat.digitChar) 0 false =
      some ((d :: ds).foldl (fun a x => a * 10 + x) 0) := by
  simp only [List.map_cons, parseDigits, digitVal_digitChar d hd,
    List.foldl_cons]
  exact parseDigits_digits ds hds (0 * 10 + d)

/-- Folding the reversed base-10 digit list of `k` recovers `k`. -/
lemma foldl_digits_reverse (k : Nat) :
    ((Nat.digits 10 k).reverse).foldl (fun a d => a * 10 + d) 0 = k := by
  have h1 : ∀ l : List Nat,
      l.foldr (fun d a => a * 10 + d) 0 = Nat.ofDigits 10 l := by
    intro l
    induction l with
    | nil => simp [Nat.ofDigits]
    | cons d ds ih =>
      simp only [List.foldr_cons, Nat.ofDigits_cons, ih]
      ring
  rw [List.foldl_reverse, h1]
  exact_mod_cast Nat.ofDigits_digits 10 k

/-- `jsParseInt` on a nonempty list of decimal digit characters reads the
whole list in base 10. -/
lemma jsParseInt_digit_list (d : Nat) (ds : List Nat)
    (hd : d < 10) (hds : ∀ x ∈ ds, x < 10) :
    jsParseInt (String.mk ((d :: ds).map Nat.digitChar)) =
      some (((d :: ds).foldl (fun a x => a * 10 + x) 0 : Nat) : Int) := by
  have hdata : (String.mk ((d :: ds).map Nat.digitChar)).data =
      Nat.digitChar d :: ds.map Nat.digitChar := by
    simp
  have hws := jsWhitespace_digitChar d hd
  have hdash := digitChar_ne_dash d hd
  have hplus := digitChar_ne_plus d hd
  have hstep := parseDigits_first d ds hd hds
  simp only [List.map_cons] at hstep
  cases ds with
  | nil =>
    simp only [jsParseInt, hdata, List.map_cons, List.map_nil,
      List.dropWhile_cons, hws, Bool.false_eq_true, reduceIte, hdash, hplus,
      if_false]
    simp only [List.map_nil] at hstep
    rw [hstep]
    simp
  | cons e es =>
    have he : e < 10 := hds e (by simp)
    have hex := digitChar_ne_x e he
    simp only [jsParseInt, hdata, List.map_cons, List.map_nil,
      List.dropWhile_cons, hws, Bool.false_eq_true, reduceIte, hdash, hplus,
      if_false]
    simp only [hex.1, hex.2, false_or, or_self, and_false, if_false]
    simp only [List.map_cons] at hstep
    rw [hstep]
    simp

/-- `jsParseInt` applied to the canonical decimal numeral of a natural
number recovers that number. -/
lemma jsParseInt_decimalString (k : Nat) :
    jsParseInt (decimalString k) = some (k : Int) := by
  by_cases hk : k = 0
  · subst hk
    decide
  · rw [decimalString, if_neg hk]
    obtain ⟨d, ds, hds⟩ : ∃ d ds, (Nat.digits 10 k).reverse = d :: ds := by
      rcases hrev : (Nat.digits 10 k).reverse with _ | ⟨d, ds⟩
      · exfalso
        have hnil : Nat.digits 10 k = [] := by
          simpa using congrArg List.reverse hrev
        exact hk (Nat.digits_eq_nil_iff_eq_zero.mp hnil)
      · exact ⟨d, ds, rfl⟩
    have hmem : ∀ x ∈ d :: ds, x < 10 := by
      intro x hx
      have hx' : x ∈ (Nat.digits 10 k).reverse := by
        rw [hds]
        exact hx
      exact Nat.digits_lt_base (by norm_num) (List.mem_reverse.mp hx')
    rw [hds, jsParseInt_digit_list d ds (hmem d (by simp))
      (fun x hx => hmem x (by simp [hx]))]
    rw [show d :: ds = (Nat.digits 10 k).reverse from hds.symm,
      foldl_digits_reverse]

/-- Claim C9, counterexample: the id path parameter `"5x"` is not the
decimal representation of an integer, yet the delete route does not
answer 400 — JavaScript `parseInt` reads the leading `5` and the route
deletes record 5, answering 200. -/
theorem deleteNotificationRoute_counterexample :
    isDecimalIntString "5x" = false ∧
    deleteNotificationRoute [⟨5, "t", none, none, 0⟩] "5x" = (200, []) := by
  decide

/-- Claim C9 as amended: the delete route answers 400 (and deletes
nothing) exactly when JavaScript `parseInt` reads no integer from the id
— i.e. the id has no leading (optionally signed, optionally `0x`) digit
run — not whenever the id is not a decimal integer; when `parseInt` reads
a value, the route answers 200 and removes exactly the records whose id
equals that value, and on an id that is the canonical decimal numeral of
`k` it removes exactly the records with id `k`. -/
theorem deleteNotificationRoute_spec (store : List Notification)
    (idParam : String) (k : Nat) :
    ((deleteNotificationRoute store idParam).1 = 400 ↔
      jsParseInt idParam = none) ∧
    (jsParseInt idParam = none →
      (deleteNotificationRoute store idParam).2 = store) ∧
    (∀ i : Int, jsParseInt idParam = some i →
      deleteNotificationRoute store idParam =
        (200, store.filter (fun n => !((n.id : Int) == i)))) ∧
    deleteNotificationRoute store (decimalString k) =
      (200, store.filter (fun n => !(n.id == k))) := by
  refine ⟨?_, ?_, ?_, ?_⟩
  · rcases h : jsParseInt idParam with _ | i <;>
      simp [deleteNotificationRoute, h]
  · intro h
    simp [deleteNotificationRoute, h]
  · intro i h
    simp [deleteNotificationRoute, h]
  · rw [show deleteNotificationRoute store (decimalString k) =
        (200, store.filter (fun n => !((n.id : Int) == (k : Int)))) by
      simp [deleteNotificationRoute, jsParseInt_decimalString k]]
    refine congrArg (fun l => ((200 : Nat), l)) ?_
    refine List.filter_congr ?_
    intro n _
    simp

/-- Witness for the amended C9: deleting id "3" from a two-record store
removes exactly record 3. -/
theorem deleteNotificationRoute_spec_witness :
    deleteNotificationRoute
        [⟨3, "t", none, none, 0⟩, ⟨4, "u", none, none, 0⟩]
        (decimalString 3) =
      (200, [⟨4, "u", none, none, 0⟩]) := by
  have h := (deleteNotificationRoute_spec
    [⟨3, "t", none, none, 0⟩, ⟨4, "u", none, none, 0⟩] "ignored" 3).2.2.2
  simpa using h

/-- Claim C10: `createPushSubscription` stores every new subscription
with `active = true` and a fresh id distinct from every stored one
(keeping the id bound invariant), and the subscribe route applies no
per-endpoint uniqueness check: two requests carrying an identical
subscription payload for the same existing user append two distinct
active rows. -/
theorem createPushSubscription_fresh_active_no_dedup
    (st : MemStorage) (userId : Nat) (payload : SubPayload)
    (userExists : Nat → Bool) (hu : userExists userId = true)
    (hinv : ∀ s ∈ st.subs, s.id < st.currentSubscriptionId) :
    (createPushSubscription st userId payload).1.active = true ∧
    (createPushSubscription st userId payload).1.id ∉
      st.subs.map (fun s => s.id) ∧
    (∀ s ∈ (createPushSubscription st userId payload).2.subs,
      s.id < (createPushSubscription st userId payload).2.currentSubscriptionId) ∧
    (subscribeRoute userExists true
        (subscribeRoute userExists true st userId payload).2
        userId payload).2.subs =
      st.subs ++
        [⟨st.currentSubscriptionId, userId, payload, true⟩,
         ⟨st.currentSubscriptionId + 1, userId, payload, true⟩] ∧
    (subscribeRoute userExists true st userId payload).1.status = 200 ∧
    (subscribeRoute userExists true
        (subscribeRoute userExists true st userId payload).2
        userId payload).1.status = 200 := by
  refine ⟨rfl, ?_, ?_, ?_, ?_, ?_⟩
  · intro hmem
    rcases List.mem_map.mp hmem with ⟨s, hs, hid⟩
    have hfresh : (createPushSubscription st userId payload).1.id =
        st.currentSubscriptionId := rfl
    rw [hfresh] at hid
    have := hinv s hs
    omega
  · intro s hs
    simp only [createPushSubscription, List.mem_append,
      List.mem_singleton] at hs
    rcases hs with hs | hs
    · have := hinv s hs
      simp [createPushSubscription]
      omega
    · subst hs
      simp [createPushSubscription]
  · simp [subscribeRoute, hu, createPushSubscription]
  · simp [subscribeRoute, hu]
  · simp [subscribeRoute, hu]

/-- Witness for C10: an empty store and user 7. -/
theorem createPushSubscription_fresh_active_no_dedup_witness :
    ((fun u => u == 7) 7 = true ∧
      ∀ s ∈ ([] : List PushSubscription), s.id < 1) ∧
    ((createPushSubscription ⟨[], 1⟩ 7 (.valid "e")).1.active = true ∧
     (createPushSubscription ⟨[], 1⟩ 7 (.valid "e")).1.id ∉
       ([] : List PushSubscription).map (fun s => s.id) ∧
     (∀ s ∈ (createPushSubscription ⟨[], 1⟩ 7 (.valid "e")).2.subs,
       s.id <
         (createPushSubscription ⟨[], 1⟩ 7 (.valid "e")).2.currentSubscriptionId) ∧
     (subscribeRoute (fun u => u == 7) true
         (subscribeRoute (fun u => u == 7) true ⟨[], 1⟩ 7 (.valid "e")).2
         7 (.valid "e")).2.subs =
       [] ++ [⟨1, 7, .valid "e", true⟩, ⟨2, 7, .valid "e", true⟩] ∧
     (subscribeRoute (fun u => u == 7) true ⟨[], 1⟩ 7 (.valid "e")).1.status =
       200 ∧
     (subscribeRoute (fun u => u == 7) true
         (subscribeRoute (fun u => u == 7) true ⟨[], 1⟩ 7 (.valid "e")).2
         7 (.valid "e")).1.status = 200) :=
  ⟨⟨by decide, by intro s hs; cases hs⟩,
   createPushSubscription_fresh_active_no_dedup ⟨[], 1⟩ 7 (.valid "e")
     (fun u => u == 7) (by decide) (by intro s hs; cases hs)⟩

end PWA
